import Mathlib

/-!
Shallow embedding of the player-loyalty-rewards-dashboard repository
(src/loyalty_calculator.py, src/utils.py, src/app.py).

Numeric columns are modelled as exact rationals (ℚ): the source computes in
Python/pandas floats, and the spec's claims are stated up to floating-point
tolerance, so exact arithmetic is the reference semantics.  A pandas
DataFrame of activity records is modelled as a `List PlayerRecord`; the
scored DataFrames become lists of result rows.  Operations that can raise a
Python exception return `Except String _`; a computation that yields NaN
(division by zero in pandas) is modelled as `Option.none`.
-/

/-- One row of the uploaded activity data
(columns: player_id, date, time_slot, deposits, withdrawals, games_played). -/
structure PlayerRecord where
  player_id : String
  date : String
  time_slot : String
  deposits : ℚ
  withdrawals : ℚ
  games_played : ℚ
deriving DecidableEq, Repr

/-! ## LoyaltyCalculator (src/loyalty_calculator.py)

`self.weights` from `LoyaltyCalculator.__init__`. -/

def weight_deposit_amount : ℚ := 0.01

def weight_withdrawal_amount : ℚ := 0.005

def weight_deposit_frequency : ℚ := 0.001

def weight_games_played : ℚ := 0.2

/-- The dict returned by `calculate_player_loyalty_points`. -/
structure LoyaltyBreakdown where
  total_loyalty_points : ℚ
  deposit_points : ℚ
  withdrawal_points : ℚ
  frequency_points : ℚ
  games_points : ℚ
  total_deposits : ℚ
  total_withdrawals : ℚ
  total_games_played : ℚ
  deposit_transactions : ℕ
  withdrawal_transactions : ℕ
deriving DecidableEq, Repr

/-- `LoyaltyCalculator.calculate_player_loyalty_points` (loyalty_calculator.py
lines 23-61).  Counts are the number of rows with a strictly positive value;
`frequency_diff` is the Python `max(deposit_count - withdrawal_count, 0)` on
integers. -/
def calculate_player_loyalty_points (player_data : List PlayerRecord) :
    LoyaltyBreakdown :=
  let total_deposits := (player_data.map (·.deposits)).sum
  let total_withdrawals := (player_data.map (·.withdrawals)).sum
  let total_games := (player_data.map (·.games_played)).sum
  let deposit_count := (player_data.filter (fun r => 0 < r.deposits)).length
  let withdrawal_count := (player_data.filter (fun r => 0 < r.withdrawals)).length
  let deposit_points := total_deposits * weight_deposit_amount
  let withdrawal_points := total_withdrawals * weight_withdrawal_amount
  let frequency_diff : ℤ := max ((deposit_count : ℤ) - (withdrawal_count : ℤ)) 0
  let frequency_points := (frequency_diff : ℚ) * weight_deposit_frequency
  let games_points := total_games * weight_games_played
  let total_points := deposit_points + withdrawal_points + frequency_points + games_points
  { total_loyalty_points := total_points
    deposit_points := deposit_points
    withdrawal_points := withdrawal_points
    frequency_points := frequency_points
    games_points := games_points
    total_deposits := total_deposits
    total_withdrawals := total_withdrawals
    total_games_played := total_games
    deposit_transactions := deposit_count
    withdrawal_transactions := withdrawal_count }

/-- `pandas.Series.unique`: the distinct values of a column in order of first
appearance, as used via `data['player_id'].unique()`. -/
def uniqueFirst : List String → List String
  | [] => []
  | x :: xs => x :: uniqueFirst (xs.filter (fun y => y ≠ x))
termination_by l => l.length
decreasing_by
  exact Nat.lt_succ_of_le (List.length_filter_le _ _)

/-- A row of the per-slot result DataFrame built by
`calculate_slot_loyalty_points`. -/
structure SlotRow where
  player_id : String
  date : String
  time_slot : String
  breakdown : LoyaltyBreakdown
deriving DecidableEq, Repr

/-- `LoyaltyCalculator.calculate_slot_loyalty_points` (loyalty_calculator.py
lines 63-97): filter to the exact (date, slot) pair, return an empty frame if
nothing matches, otherwise score each distinct player of the filtered subset. -/
def calculate_slot_loyalty_points (data : List PlayerRecord)
    (target_date slot : String) : List SlotRow :=
  let slot_data := data.filter (fun r => r.date = target_date ∧ r.time_slot = slot)
  if slot_data.isEmpty then []
  else
    (uniqueFirst (slot_data.map (·.player_id))).map (fun pid =>
      { player_id := pid
        date := target_date
        time_slot := slot
        breakdown := calculate_player_loyalty_points
          (slot_data.filter (fun r => r.player_id = pid)) })

/-- A row of the monthly result DataFrame built by
`calculate_monthly_loyalty_points`. -/
structure MonthlyRow where
  player_id : String
  breakdown : LoyaltyBreakdown
deriving DecidableEq, Repr

/-- The key `sort_values('total_loyalty_points', ascending=False)` sorts by:
`a` may precede `b` iff `a`'s points are at least `b`'s. -/
def monthlyDescRel (a b : MonthlyRow) : Prop :=
  b.breakdown.total_loyalty_points ≤ a.breakdown.total_loyalty_points

instance : DecidableRel monthlyDescRel := fun _ _ =>
  inferInstanceAs (Decidable (_ ≤ _))

instance : IsTotal MonthlyRow monthlyDescRel :=
  ⟨fun a b => (le_total b.breakdown.total_loyalty_points a.breakdown.total_loyalty_points)⟩

instance : IsTrans MonthlyRow monthlyDescRel :=
  ⟨fun _ _ _ hab hbc => le_trans hbc hab⟩

/-- `LoyaltyCalculator.calculate_monthly_loyalty_points` (loyalty_calculator.py
lines 99-124): score each distinct player, then
`pd.DataFrame(results).sort_values('total_loyalty_points', ascending=False)`.
When `data` has no rows, `results` is the empty list and `pd.DataFrame([])`
is a frame with NO columns, so `sort_values('total_loyalty_points')` raises
`KeyError`; that exception is modelled as `Except.error`. -/
def calculate_monthly_loyalty_points (data : List PlayerRecord) :
    Except String (List MonthlyRow) :=
  let results := (uniqueFirst (data.map (·.player_id))).map (fun pid =>
    { player_id := pid
      breakdown := calculate_player_loyalty_points
        (data.filter (fun r => r.player_id = pid)) : MonthlyRow })
  if results.isEmpty then
    Except.error "KeyError: total_loyalty_points"
  else
    Except.ok (List.insertionSort monthlyDescRel results)

/-- The two-key sort of `rank_players_by_loyalty_points`:
descending `total_loyalty_points`, then descending tie-breaker value. -/
def rankRel (tie_breaker : MonthlyRow → ℚ) (a b : MonthlyRow) : Prop :=
  b.breakdown.total_loyalty_points < a.breakdown.total_loyalty_points ∨
    (a.breakdown.total_loyalty_points = b.breakdown.total_loyalty_points ∧
      tie_breaker b ≤ tie_breaker a)

instance (tb : MonthlyRow → ℚ) : DecidableRel (rankRel tb) := fun _ _ =>
  inferInstanceAs (Decidable (_ ∨ _))

instance (tb : MonthlyRow → ℚ) : IsTotal MonthlyRow (rankRel tb) := by
  constructor
  intro a b
  rcases lt_trichotomy b.breakdown.total_loyalty_points a.breakdown.total_loyalty_points with
    h | h | h
  · exact Or.inl (Or.inl h)
  · rcases le_total (tb b) (tb a) with ht | ht
    · exact Or.inl (Or.inr ⟨h.symm, ht⟩)
    · exact Or.inr (Or.inr ⟨h, ht⟩)
  · exact Or.inr (Or.inl h)

instance (tb : MonthlyRow → ℚ) : IsTrans MonthlyRow (rankRel tb) := by
  constructor
  intro a b c hab hbc
  rcases hab with h1 | ⟨h1, ht1⟩
  · rcases hbc with h2 | ⟨h2, _⟩
    · exact Or.inl (h2.trans h1)
    · exact Or.inl (h2 ▸ h1)
  · rcases hbc with h2 | ⟨h2, ht2⟩
    · exact Or.inl (h1 ▸ h2)
    · exact Or.inr ⟨h1.trans h2, ht2.trans ht1⟩

/-- A row of the ranked DataFrame: a scored row plus its 1-based `rank`. -/
structure RankedRow where
  row : MonthlyRow
  rank : ℕ
deriving DecidableEq, Repr

/-- `ranked_data['rank'] = range(1, len(ranked_data) + 1)`: attach consecutive
ranks starting from `n` down a list. -/
def attach_ranks (n : ℕ) : List MonthlyRow → List RankedRow
  | [] => []
  | x :: xs => ⟨x, n⟩ :: attach_ranks (n + 1) xs

/-- The default tie-breaker column `'total_games_played'`. -/
def default_tie_breaker (r : MonthlyRow) : ℚ :=
  r.breakdown.total_games_played

/-- `LoyaltyCalculator.rank_players_by_loyalty_points` (loyalty_calculator.py
lines 148-166): sort by `['total_loyalty_points', tie_breaker]`, both
descending, then assign ranks 1..N positionally. -/
def rank_players_by_loyalty_points (loyalty_data : List MonthlyRow)
    (tie_breaker : MonthlyRow → ℚ := default_tie_breaker) : List RankedRow :=
  attach_ranks 1 (List.insertionSort (rankRel tie_breaker) loyalty_data)

/-! ## Bonus allocation (src/app.py, `bonus_allocation_page`, lines 318-341)

The page operates on `top_50_players`, the (at most 50) highest-scoring rows
of the monthly results; each policy adds a `bonus_amount` column.  Each
policy is modelled as a function from that row list and the configured pool
to the list of bonus amounts, in row order. -/

/-- `"Proportional to Loyalty Points"` (app.py lines 322-326):
`bonus_amount = total_loyalty_points / total_points * bonus_pool`.
When `total_points` sums to zero the pandas division is 0/0, which yields
NaN bonus amounts; that undefined outcome is modelled as `none`. -/
def proportional_allocation (top_players : List MonthlyRow) (bonus_pool : ℚ) :
    Option (List ℚ) :=
  let total_points := (top_players.map (·.breakdown.total_loyalty_points)).sum
  if total_points = 0 then none
  else some (top_players.map
    (fun p => p.breakdown.total_loyalty_points / total_points * bonus_pool))

/-- `"Equal Distribution"` (app.py lines 328-329):
`bonus_amount = bonus_pool / 50` for every row — the divisor is the literal
50, not the number of rows. -/
def equal_allocation (top_players : List MonthlyRow) (bonus_pool : ℚ) :
    List ℚ :=
  top_players.map (fun _ => bonus_pool / 50)

/-- `"Tiered Distribution"` (app.py lines 331-341): after
`bonus_amount = 0.0`, the label slices `.loc[:9]`, `.loc[10:29]` and
`.loc[30:49]` (inclusive bounds over the reset 0-based index) receive
`pool*0.5/10`, `pool*0.35/20` and `pool*0.15/20` respectively. -/
def tiered_bonus_at (bonus_pool : ℚ) (i : ℕ) : ℚ :=
  if i ≤ 9 then bonus_pool * 0.5 / 10
  else if i ≤ 29 then bonus_pool * 0.35 / 20
  else if i ≤ 49 then bonus_pool * 0.15 / 20
  else 0

def tiered_allocation (top_players : List MonthlyRow) (bonus_pool : ℚ) :
    List ℚ :=
  (List.range top_players.length).map (tiered_bonus_at bonus_pool)

/-! ## validate_data (src/utils.py, lines 7-60)

The uploaded frame may lack columns, and cell values are dynamic, so the
frame is modelled as a column-name list plus rows whose cells carry the
observable outcomes of the pandas checks: whether `player_id` is null,
whether the `date` value is accepted by `pd.to_datetime`, the `time_slot`
string, and for each numeric column `some q` for a value coercible to the
rational `q` and `none` for one that `pd.to_numeric(errors='coerce')` turns
into NaN. -/

structure RawRow where
  player_id_null : Bool
  date_parses : Bool
  time_slot : String
  deposits : Option ℚ
  withdrawals : Option ℚ
  games_played : Option ℚ
deriving DecidableEq, Repr

structure RawData where
  cols : List String
  rows : List RawRow
deriving DecidableEq, Repr

def required_columns : List String :=
  ["player_id", "date", "time_slot", "deposits", "withdrawals", "games_played"]

/-- The result dict of `validate_data`: (`is_valid`, `errors`). -/
structure ValidationResult where
  is_valid : Bool
  errors : List String
deriving DecidableEq, Repr

/-- The numeric-column check of utils.py lines 45-55 for one column, given
the cell extractor for that column. -/
def numeric_column_errors (data : RawData) (col : String)
    (cell : RawRow → Option ℚ) : List String :=
  if col ∈ data.cols then
    (if data.rows.any (fun r => (cell r).isNone) then
      ["Non-numeric values found in " ++ col] else []) ++
    (if data.rows.any (fun r => match cell r with
        | some v => v < 0
        | none => false) then
      ["Negative values found in " ++ col] else [])
  else []

/-- `validate_data` (utils.py lines 7-60).  The missing-column message is
appended first; an empty frame then returns immediately with
`"Dataset is empty"` appended, skipping every per-record check. -/
def validate_data (data : RawData) : ValidationResult :=
  let missing_columns := required_columns.filter (fun c => c ∉ data.cols)
  let errors :=
    if missing_columns.isEmpty then []
    else ["Missing required columns: " ++ String.intercalate ", " missing_columns]
  if data.rows.length = 0 then
    { is_valid := false, errors := errors ++ ["Dataset is empty"] }
  else
    let errors := errors ++
      (if "player_id" ∈ data.cols then
        (if data.rows.any (·.player_id_null) then
          ["Player ID contains null values"] else [])
      else []) ++
      (if "date" ∈ data.cols then
        (if data.rows.any (fun r => !r.date_parses) then
          ["Invalid date format detected"] else [])
      else []) ++
      (if "time_slot" ∈ data.cols then
        (if data.rows.any (fun r => r.time_slot ∉ ["S1", "S2"]) then
          -- the source message also interpolates the offending values;
          -- only the fixed prefix is modelled
          ["Invalid time_slot values found"] else [])
      else []) ++
      numeric_column_errors data "deposits" (·.deposits) ++
      numeric_column_errors data "withdrawals" (·.withdrawals) ++
      numeric_column_errors data "games_played" (·.games_played)
    { is_valid := errors.isEmpty, errors := errors }

/-! ## Helper lemmas -/

/-- Each weighted term of the loyalty formula is non-negative on
non-negative records, so the total is. -/
theorem total_loyalty_points_nonneg (pd : List PlayerRecord)
    (h : ∀ r ∈ pd, 0 ≤ r.deposits ∧ 0 ≤ r.withdrawals ∧ 0 ≤ r.games_played) :
    0 ≤ (calculate_player_loyalty_points pd).total_loyalty_points := by
  have hd : 0 ≤ (pd.map (·.deposits)).sum := by
    refine List.sum_nonneg ?_
    intro x hx
    obtain ⟨r, hr, rfl⟩ := List.mem_map.mp hx
    exact (h r hr).1
  have hw : 0 ≤ (pd.map (·.withdrawals)).sum := by
    refine List.sum_nonneg ?_
    intro x hx
    obtain ⟨r, hr, rfl⟩ := List.mem_map.mp hx
    exact (h r hr).2.1
  have hg : 0 ≤ (pd.map (·.games_played)).sum := by
    refine List.sum_nonneg ?_
    intro x hx
    obtain ⟨r, hr, rfl⟩ := List.mem_map.mp hx
    exact (h r hr).2.2
  have hf : (0 : ℚ) ≤
      ((max (((pd.filter (fun r => 0 < r.deposits)).length : ℤ) -
        ((pd.filter (fun r => 0 < r.withdrawals)).length : ℤ)) 0 : ℤ) : ℚ) := by
    exact_mod_cast le_max_right _ _
  show 0 ≤ _ * weight_deposit_amount + _ * weight_withdrawal_amount +
    _ * weight_deposit_frequency + _ * weight_games_played
  have w1 : (0 : ℚ) ≤ weight_deposit_amount := by norm_num [weight_deposit_amount]
  have w2 : (0 : ℚ) ≤ weight_withdrawal_amount := by
    norm_num [weight_withdrawal_amount]
  have w3 : (0 : ℚ) ≤ weight_deposit_frequency := by
    norm_num [weight_deposit_frequency]
  have w4 : (0 : ℚ) ≤ weight_games_played := by norm_num [weight_games_played]
  have := mul_nonneg hd w1
  have := mul_nonneg hw w2
  have := mul_nonneg hf w3
  have := mul_nonneg hg w4
  linarith

/-- Unfolding `calculate_monthly_loyalty_points data = .ok l`: the scored
rows before sorting. -/
def monthly_results (data : List PlayerRecord) : List MonthlyRow :=
  (uniqueFirst (data.map (·.player_id))).map (fun pid =>
    { player_id := pid
      breakdown := calculate_player_loyalty_points
        (data.filter (fun r => r.player_id = pid)) })

theorem calculate_monthly_eq_ok {data : List PlayerRecord} {l : List MonthlyRow}
    (h : calculate_monthly_loyalty_points data = Except.ok l) :
    ¬(monthly_results data).isEmpty ∧
      l = List.insertionSort monthlyDescRel (monthly_results data) := by
  unfold calculate_monthly_loyalty_points at h
  by_cases he : (monthly_results data).isEmpty
  · rw [show ((uniqueFirst (data.map (·.player_id))).map _) = monthly_results data
      from rfl, if_pos he] at h
    exact absurd h (by simp)
  · rw [show ((uniqueFirst (data.map (·.player_id))).map _) = monthly_results data
      from rfl, if_neg he] at h
    exact ⟨he, (Except.ok.injEq _ _ ▸ h.symm : l = _)⟩

/-- Every row of the monthly result carries the breakdown of the
corresponding filtered subset of the input. -/
theorem mem_monthly_results {data : List PlayerRecord} {row : MonthlyRow}
    (h : row ∈ monthly_results data) :
    ∃ pid, row.breakdown =
      calculate_player_loyalty_points (data.filter (fun r => r.player_id = pid)) := by
  obtain ⟨pid, _, rfl⟩ := List.mem_map.mp h
  exact ⟨pid, rfl⟩

/-! ## Claims -/

/-- C2: the Scorer's breakdown satisfies the fixed-weight formula
(deposit 0.01, withdrawal 0.005, frequency 0.001 on the floored count
difference, games 0.2, total the sum), and the single record
(deposits=1000, withdrawals=500, games_played=5) yields
deposit_points=10.0, withdrawal_points=2.5, frequency_points=0,
games_points=1.0, total_loyalty_points=13.5. -/
theorem claim_C2_scorer_breakdown_formula :
    (∀ player_data : List PlayerRecord,
      (calculate_player_loyalty_points player_data).deposit_points =
        (calculate_player_loyalty_points player_data).total_deposits * 0.01 ∧
      (calculate_player_loyalty_points player_data).withdrawal_points =
        (calculate_player_loyalty_points player_data).total_withdrawals * 0.005 ∧
      (calculate_player_loyalty_points player_data).deposit_transactions =
        (player_data.filter (fun r => 0 < r.deposits)).length ∧
      (calculate_player_loyalty_points player_data).withdrawal_transactions =
        (player_data.filter (fun r => 0 < r.withdrawals)).length ∧
      (calculate_player_loyalty_points player_data).frequency_points =
        ((max (((calculate_player_loyalty_points player_data).deposit_transactions : ℤ) -
          ((calculate_player_loyalty_points player_data).withdrawal_transactions : ℤ))
          0 : ℤ) : ℚ) * 0.001 ∧
      (calculate_player_loyalty_points player_data).games_points =
        (calculate_player_loyalty_points player_data).total_games_played * 0.2 ∧
      (calculate_player_loyalty_points player_data).total_loyalty_points =
        (calculate_player_loyalty_points player_data).deposit_points +
        (calculate_player_loyalty_points player_data).withdrawal_points +
        (calculate_player_loyalty_points player_data).frequency_points +
        (calculate_player_loyalty_points player_data).games_points) ∧
    calculate_player_loyalty_points [⟨"P001", "2023-10-02", "S1", 1000, 500, 5⟩] =
      { total_loyalty_points := 13.5
        deposit_points := 10
        withdrawal_points := 2.5
        frequency_points := 0
        games_points := 1
        total_deposits := 1000
        total_withdrawals := 500
        total_games_played := 5
        deposit_transactions := 1
        withdrawal_transactions := 1 } := by
  constructor
  · intro pd
    exact ⟨rfl, rfl, rfl, rfl, rfl, rfl, rfl⟩
  · norm_num [calculate_player_loyalty_points, weight_deposit_amount,
      weight_withdrawal_amount, weight_deposit_frequency, weight_games_played,
      List.filter]

/-- C9: on records with non-negative deposits, withdrawals and games_played,
every player's total_loyalty_points in the monthly scored result is
non-negative. -/
theorem claim_C9_scored_points_nonneg (data : List PlayerRecord)
    (h : ∀ r ∈ data, 0 ≤ r.deposits ∧ 0 ≤ r.withdrawals ∧ 0 ≤ r.games_played)
    (l : List MonthlyRow)
    (hl : calculate_monthly_loyalty_points data = Except.ok l) :
    ∀ row ∈ l, 0 ≤ row.breakdown.total_loyalty_points := by
  intro row hrow
  obtain ⟨-, rfl⟩ := calculate_monthly_eq_ok hl
  have hmem : row ∈ monthly_results data :=
    (List.perm_insertionSort monthlyDescRel _).mem_iff.mp hrow
  obtain ⟨pid, hb⟩ := mem_monthly_results hmem
  rw [hb]
  refine total_loyalty_points_nonneg _ ?_
  intro r hr
  exact h r (List.mem_filter.mp hr).1

/-- C5 (failing part): `calculate_monthly_loyalty_points` on an empty record
subset raises — `pd.DataFrame([])` has no `total_loyalty_points` column, so
`sort_values` raises `KeyError` — instead of returning an empty result. -/
theorem claim_C5_monthly_empty_subset_raises :
    calculate_monthly_loyalty_points [] =
      Except.error "KeyError: total_loyalty_points" := by
  simp [calculate_monthly_loyalty_points, uniqueFirst]

/-- C3: with every ranked player at zero total_loyalty_points, the
Proportional policy divides by a zero denominator; pandas produces NaN
bonus amounts (modelled `none`) — there is no Equal-Distribution fallback. -/
theorem claim_C3_zero_points_proportional_undefined :
    proportional_allocation
      [⟨"P001", ⟨0, 0, 0, 0, 0, 0, 0, 0, 0, 0⟩⟩,
       ⟨"P002", ⟨0, 0, 0, 0, 0, 0, 0, 0, 0, 0⟩⟩] 50000 = none := by
  simp [proportional_allocation]

/-- C10 (amended shape): whenever the record set is non-empty, monthly
scoring succeeds, and any returned result list is sorted in descending
order of total_loyalty_points. -/
theorem claim_C10_monthly_result_sorted_desc (data : List PlayerRecord)
    (hne : data ≠ []) :
    (calculate_monthly_loyalty_points data).isOk = true ∧
    ∀ l, calculate_monthly_loyalty_points data = Except.ok l →
      l.Sorted monthlyDescRel := by
  constructor
  · obtain ⟨r, rest, rfl⟩ : ∃ r rest, data = r :: rest := by
      cases data with
      | nil => exact absurd rfl hne
      | cons a b => exact ⟨a, b, rfl⟩
    simp [calculate_monthly_loyalty_points, uniqueFirst, Except.isOk,
      Except.toBool]
  · intro l hl
    obtain ⟨-, rfl⟩ := calculate_monthly_eq_ok hl
    exact List.sorted_insertionSort _ _

/-- Witness for C10 at the single-record data set. -/
theorem claim_C10_witness :
    (calculate_monthly_loyalty_points
      [⟨"P001", "2023-10-02", "S1", 0, 0, 0⟩]).isOk = true ∧
    List.Sorted monthlyDescRel
      [MonthlyRow.mk "P001" (calculate_player_loyalty_points
        [⟨"P001", "2023-10-02", "S1", 0, 0, 0⟩])] :=
  ⟨(claim_C10_monthly_result_sorted_desc
      [⟨"P001", "2023-10-02", "S1", 0, 0, 0⟩] (by simp)).1,
    (claim_C10_monthly_result_sorted_desc
      [⟨"P001", "2023-10-02", "S1", 0, 0, 0⟩] (by simp)).2 _
      (by simp [calculate_monthly_loyalty_points, uniqueFirst,
        List.insertionSort, List.orderedInsert])⟩

/-- Ranks attached from `n` down a list are the consecutive integers
`n, n+1, ...`. -/
theorem attach_ranks_map_rank (s : List MonthlyRow) :
    ∀ n : ℕ, (attach_ranks n s).map (·.rank) = List.range' n s.length := by
  induction s with
  | nil => intro n; rfl
  | cons x xs ih =>
    intro n
    simp only [attach_ranks, List.map_cons, List.length_cons, List.range'_succ]
    rw [ih (n + 1)]

/-- C7: the ranks assigned by `rank_players_by_loyalty_points` are exactly
`1..N` — strictly increasing from 1, no gaps, no duplicates — for any
tie-breaker column and regardless of score ties. -/
theorem claim_C7_ranks_exactly_one_to_N (loyalty_data : List MonthlyRow)
    (tie_breaker : MonthlyRow → ℚ) :
    (rank_players_by_loyalty_points loyalty_data tie_breaker).map (·.rank) =
      List.range' 1 loyalty_data.length := by
  unfold rank_players_by_loyalty_points
  rw [attach_ranks_map_rank]
  congr 1
  exact (List.perm_insertionSort _ _).length_eq

/-- C6 (amended): on every empty input batch, validation fails, skips the
per-record checks, and ends with the error "Dataset is empty"; that error
is the only one exactly when no required column is missing (a missing
required column is reported first, before the empty check). -/
theorem claim_C6_validate_empty_dataset (data : RawData) (h : data.rows = []) :
    (validate_data data).is_valid = false ∧
    (validate_data data).errors.getLast? = some "Dataset is empty" ∧
    ((∀ c ∈ required_columns, c ∈ data.cols) →
      (validate_data data).errors = ["Dataset is empty"]) := by
  have hlen : data.rows.length = 0 := by rw [h]; rfl
  unfold validate_data
  rw [if_pos hlen]
  refine ⟨rfl, ?_, ?_⟩
  · simp
  · intro hcols
    have hfil : (required_columns.filter (fun c => c ∉ data.cols)) = [] := by
      rw [List.filter_eq_nil_iff]
      intro c hc
      simpa using hcols c hc
    rw [hfil]
    rfl

/-- Witness for C6 at the empty batch that has all required columns. -/
theorem claim_C6_witness :
    (validate_data ⟨required_columns, []⟩).errors = ["Dataset is empty"] :=
  (claim_C6_validate_empty_dataset ⟨required_columns, []⟩ rfl).2.2
    (fun _ hc => hc)

/-- Counterexample for C6 as stated: the empty batch with no columns at all
produces two errors (the missing-columns error precedes "Dataset is
empty"), not the single lowercase message the claim names. -/
theorem claim_C6_counterexample :
    (validate_data ⟨[], []⟩).errors.length = 2 ∧
    (validate_data ⟨[], []⟩).errors ≠ ["dataset is empty"] := by
  constructor <;> simp [validate_data, required_columns]

/-- A scored row with the given loyalty points and games played, used as a
concrete input for the allocation and ranking claims. -/
def sample_breakdown (pts games : ℚ) : LoyaltyBreakdown :=
  ⟨pts, 0, 0, 0, 0, 0, 0, games, 0, 0⟩

def sample_row (pid : String) (pts games : ℚ) : MonthlyRow :=
  ⟨pid, sample_breakdown pts games⟩

/-- Witness for C9 at a single all-zero record. -/
theorem claim_C9_witness :
    0 ≤ (MonthlyRow.mk "P001" (calculate_player_loyalty_points
        [⟨"P001", "2023-10-02", "S1", 0, 0, 0⟩])).breakdown.total_loyalty_points := by
  refine claim_C9_scored_points_nonneg
    [⟨"P001", "2023-10-02", "S1", 0, 0, 0⟩] ?_
    [MonthlyRow.mk "P001" (calculate_player_loyalty_points
      [⟨"P001", "2023-10-02", "S1", 0, 0, 0⟩])] ?_ _ ?_
  · intro r hr
    simp only [List.mem_singleton] at hr
    subst hr
    refine ⟨le_refl 0, le_refl 0, le_refl 0⟩
  · simp [calculate_monthly_loyalty_points, uniqueFirst, List.insertionSort,
      List.orderedInsert]
  · simp

/-- C4 (amended): under the Equal policy every member's bonus_amount is
`pool / 50` regardless of the set size; this equals `pool / N` exactly when
the ranked set has N = 50 members, and with pool=50000 and 50 members every
bonus_amount is 1000.0. -/
theorem claim_C4_equal_distribution (top_players : List MonthlyRow) (pool : ℚ) :
    (∀ b ∈ equal_allocation top_players pool, b = pool / 50) ∧
    (top_players.length = 50 →
      ∀ b ∈ equal_allocation top_players pool,
        b = pool / (top_players.length : ℚ)) ∧
    equal_allocation (List.replicate 50 (sample_row "P" 1 2)) 50000 =
      List.replicate 50 1000 := by
  refine ⟨?_, ?_, ?_⟩
  · intro b hb
    obtain ⟨_, _, rfl⟩ := List.mem_map.mp hb
    rfl
  · intro h50 b hb
    obtain ⟨_, _, rfl⟩ := List.mem_map.mp hb
    rw [h50]
    norm_num
  · rw [equal_allocation, List.map_replicate]
    norm_num

/-- Witness for C4: on a 50-member set the uniform `pool / 50` bonus
coincides with `pool / N`. -/
theorem claim_C4_witness :
    (50000 : ℚ) / 50 =
      50000 / ((List.replicate 50 (sample_row "P" 1 2)).length : ℚ) :=
  (claim_C4_equal_distribution (List.replicate 50 (sample_row "P" 1 2)) 50000).2.1
    (by simp) (50000 / 50)
    (by simp [equal_allocation, List.map_replicate, List.mem_replicate])

/-- Counterexample for C4 as stated: on a one-member ranked set the claim
predicts a bonus of pool / N = 50000, but the code assigns pool / 50 = 1000. -/
theorem claim_C4_counterexample :
    equal_allocation [sample_row "P1" 10 0] 50000 = [1000] ∧
    (50000 : ℚ) / (([sample_row "P1" 10 0] : List MonthlyRow).length : ℚ) = 50000 ∧
    (1000 : ℚ) ≠ 50000 := by
  refine ⟨?_, by norm_num, by norm_num⟩
  simp [equal_allocation]
  norm_num

/-- The Tiered bonus at 0-based row `i`, as the pool times a fixed fraction
with denominator 400 (numerators 20, 7, 3 per tier). -/
def tiered_numerator (i : ℕ) : ℕ :=
  if i ≤ 9 then 20 else if i ≤ 29 then 7 else if i ≤ 49 then 3 else 0

theorem tiered_bonus_at_eq (pool : ℚ) (i : ℕ) :
    tiered_bonus_at pool i = pool * ((tiered_numerator i : ℚ) / 400) := by
  unfold tiered_bonus_at tiered_numerator
  split_ifs <;> push_cast <;> ring_nf

theorem tiered_numerator_range_sum :
    ((List.range 50).map tiered_numerator).sum = 400 := by decide

/-- Summing natural numerators divided by a common rational denominator. -/
theorem sum_map_cast_div (c : ℕ → ℕ) (l : List ℕ) (d : ℚ) :
    (l.map (fun i => ((c i : ℚ) / d))).sum = ((l.map c).sum : ℚ) / d := by
  induction l with
  | nil => simp
  | cons x xs ih =>
    simp only [List.map_cons, List.sum_cons, ih]
    push_cast
    rw [add_div]

/-- C1 (amended): the Proportional allocation sums exactly to the pool
whenever the total loyalty points are non-zero, and the Equal and Tiered
allocations sum exactly to the pool whenever the ranked set has exactly 50
members (for fewer members they distribute only part of the pool). -/
theorem claim_C1_allocation_sums_to_pool (top_players : List MonthlyRow)
    (pool : ℚ) :
    ((top_players.map (·.breakdown.total_loyalty_points)).sum ≠ 0 →
      (proportional_allocation top_players pool).map List.sum = some pool) ∧
    (top_players.length = 50 → (equal_allocation top_players pool).sum = pool) ∧
    (top_players.length = 50 → (tiered_allocation top_players pool).sum = pool) := by
  refine ⟨?_, ?_, ?_⟩
  · intro hS
    unfold proportional_allocation
    rw [if_neg hS]
    simp only [Option.map_some', Option.some.injEq]
    set S := (top_players.map (·.breakdown.total_loyalty_points)).sum with hSdef
    have hmap : top_players.map
        (fun p => p.breakdown.total_loyalty_points / S * pool) =
        top_players.map
        (fun p => p.breakdown.total_loyalty_points * (pool / S)) := by
      refine List.map_congr_left ?_
      intro p _
      rw [div_mul_eq_mul_div, mul_div_assoc]
    rw [hmap, List.sum_map_mul_right, ← hSdef, mul_comm,
      div_mul_cancel₀ pool hS]
  · intro h50
    unfold equal_allocation
    rw [List.map_const', List.sum_replicate, h50, nsmul_eq_mul]
    push_cast
    rw [mul_comm, div_mul_cancel₀ pool (by norm_num : (50 : ℚ) ≠ 0)]
  · intro h50
    unfold tiered_allocation
    rw [h50]
    have hmap : (List.range 50).map (tiered_bonus_at pool) =
        (List.range 50).map (fun i => pool * ((tiered_numerator i : ℚ) / 400)) :=
      List.map_congr_left (fun i _ => tiered_bonus_at_eq pool i)
    rw [hmap, List.sum_map_mul_left, sum_map_cast_div,
      tiered_numerator_range_sum]
    norm_num

/-- Witness for C1 on a 50-member set with one loyalty point each. -/
theorem claim_C1_witness :
    (proportional_allocation (List.replicate 50 (sample_row "P" 1 2))
      50000).map List.sum = some 50000 ∧
    (equal_allocation (List.replicate 50 (sample_row "P" 1 2)) 50000).sum =
      50000 ∧
    (tiered_allocation (List.replicate 50 (sample_row "P" 1 2)) 50000).sum =
      50000 :=
  ⟨(claim_C1_allocation_sums_to_pool _ 50000).1
      (by simp only [sample_row, sample_breakdown, List.map_replicate,
        List.sum_replicate, nsmul_eq_mul, mul_one, ne_eq, Nat.cast_ofNat,
        OfNat.ofNat_ne_zero, not_false_eq_true]),
    (claim_C1_allocation_sums_to_pool _ 50000).2.1 (by simp),
    (claim_C1_allocation_sums_to_pool _ 50000).2.2 (by simp)⟩

/-- Counterexample for C1 as stated: with a single ranked player the Equal
policy allocates 1000 of a 50000 pool — far outside the 1e-6 relative
tolerance. -/
theorem claim_C1_counterexample :
    ¬ (|(equal_allocation [sample_row "P1" 10 0] 50000).sum - 50000| ≤
        50000 * (1 / 1000000 : ℚ)) := by
  simp only [equal_allocation, List.map_cons, List.map_nil, List.sum_cons,
    List.sum_nil]
  norm_num [abs_le]

/-- A member of a rank-attached list sits at an index of the sorted list,
and its rank is the start value plus that index. -/
theorem mem_attach_ranks {a : RankedRow} :
    ∀ {s : List MonthlyRow} {n : ℕ}, a ∈ attach_ranks n s →
      ∃ i, ∃ hi : i < s.length, s.get ⟨i, hi⟩ = a.row ∧ a.rank = n + i := by
  intro s
  induction s with
  | nil => intro n h; cases h
  | cons x xs ih =>
    intro n h
    rcases List.mem_cons.mp h with rfl | h'
    · exact ⟨0, Nat.succ_pos _, rfl, (Nat.add_zero n).symm⟩
    · obtain ⟨i, hi, hrow, hrank⟩ := ih h'
      exact ⟨i + 1, Nat.succ_lt_succ hi, hrow, by omega⟩

/-- C8: with the default total_games_played tie-breaker, of two ranked
players with identical total_loyalty_points, the one with more games played
receives the strictly smaller (better) rank. -/
theorem claim_C8_ties_broken_by_games_played (loyalty_data : List MonthlyRow)
    (a b : RankedRow)
    (ha : a ∈ rank_players_by_loyalty_points loyalty_data)
    (hb : b ∈ rank_players_by_loyalty_points loyalty_data)
    (hpts : a.row.breakdown.total_loyalty_points =
      b.row.breakdown.total_loyalty_points)
    (hgames : b.row.breakdown.total_games_played <
      a.row.breakdown.total_games_played) :
    a.rank < b.rank := by
  unfold rank_players_by_loyalty_points at ha hb
  obtain ⟨i, hi, hrowa, hranka⟩ := mem_attach_ranks ha
  obtain ⟨j, hj, hrowb, hrankb⟩ := mem_attach_ranks hb
  have hsorted : (List.insertionSort (rankRel default_tie_breaker)
      loyalty_data).Sorted (rankRel default_tie_breaker) :=
    List.sorted_insertionSort _ _
  have hij : i < j := by
    rcases Nat.lt_trichotomy i j with h | h | h
    · exact h
    · exfalso
      subst h
      rw [hrowa] at hrowb
      rw [hrowb] at hgames
      exact lt_irrefl _ hgames
    · exfalso
      have hrel : rankRel default_tie_breaker
          ((List.insertionSort (rankRel default_tie_breaker)
            loyalty_data).get ⟨j, hj⟩)
          ((List.insertionSort (rankRel default_tie_breaker)
            loyalty_data).get ⟨i, hi⟩) :=
        hsorted.rel_get_of_lt (Fin.mk_lt_mk.mpr h)
      rw [hrowa, hrowb] at hrel
      rcases hrel with hlt | ⟨-, hle⟩
      · rw [hpts] at hlt
        exact lt_irrefl _ hlt
      · exact absurd hgames (not_lt.mpr hle)
  omega

/-- Witness for C8: two players tied at 5 points, with 10 and 3 games
played, rank 1 and 2 respectively. -/
theorem claim_C8_witness :
    (RankedRow.mk (sample_row "A" 5 10) 1).rank <
      (RankedRow.mk (sample_row "B" 5 3) 2).rank :=
  claim_C8_ties_broken_by_games_played
    [sample_row "A" 5 10, sample_row "B" 5 3]
    (RankedRow.mk (sample_row "A" 5 10) 1)
    (RankedRow.mk (sample_row "B" 5 3) 2)
    (by decide) (by decide) (by decide) (by decide)
